import Mathlib

/-!
Shallow embedding of the authenticated-request core of python-fedora
(src/fedora/client/__init__.py, class BaseClient): session persistence
(_save_session / _load_session), authentication (_authenticate) and the
request dispatcher (send_request).

Modelling conventions:
* A Python SimpleCookie is modelled as its list of morsels (name/value
  pairs); SimpleCookie.load merges/overrides morsels by name.
* Python exceptions become constructors of the Err type; a function that
  can raise returns Except Err.
* JSON payloads decoded by simplejson are modelled as association lists
  with distinct keys (the code only tests key membership and reads
  values, never nested structure of the values it inspects).
* File and network I/O is made explicit: the session file is a FileState
  value threaded through the client state, and the server is an Env of
  response oracles indexed by the order of the HTTP exchanges (the code
  never lets the response depend on request headers in a way any claim
  needs).  Ghost counters (httpCount, loginCount, authForceCount) count
  the urlopen calls of send_request, the urlopen calls of _authenticate,
  and the forced (force=True) authentication attempts.
-/

/-- Value of a decoded JSON field.  The dispatcher only checks key presence
and passes field values through, so a flat value type suffices. -/
inductive JsonVal where
  | str (s : String)
  | num (n : Int)
  | boolean (b : Bool)
  | null
deriving Repr, DecidableEq

/-- A decoded top-level JSON object (simplejson result), as an association
list with distinct keys. -/
def Payload := List (String × JsonVal)
deriving Repr, DecidableEq

/-- Morsel list of a Cookie.SimpleCookie: cookie names with their values. -/
def SimpleCookie := List (String × String)
deriving Repr, DecidableEq

/-- Request parameters (reqParams), urlencoded into the request body. -/
def Params := List (String × String)
deriving Repr, DecidableEq

/-- Python exceptions that the embedded code can raise. -/
inductive Err where
  /-- fedora.client.AuthError -/
  | authError (msg : String)
  /-- fedora.client.ServerError -/
  | serverError (msg : String)
  /-- fedora.client.AppError; name and message are the payload fields. -/
  | appError (name : JsonVal) (message : JsonVal)
  /-- urllib2.HTTPError re-raised unchanged (its http error message). -/
  | httpError (msg : String)
  /-- ValueError from simplejson decoding. -/
  | valueError (msg : String)
  /-- KeyError from an unguarded dict lookup or string interpolation. -/
  | keyError
  /-- IOError from opening an unreadable file. -/
  | ioError
  /-- cPickle.UnpicklingError (or similar non-EOF deserialize failure). -/
  | unpicklingError
deriving Repr, DecidableEq

/-- Lookup of a key in a decoded JSON object (Python: data[k] / k in data). -/
def payloadLookup (d : Payload) (k : String) : Option JsonVal :=
  match d with
  | [] => none
  | (k', v) :: rest => if k' = k then some v else payloadLookup rest k

/-- Python str() of a JSON field value, used by %-interpolation. -/
def jsonStr : JsonVal → String
  | .str s => s
  | .num n => toString n
  | .boolean b => if b then "True" else "False"
  | .null => "None"

/-- Set one morsel in a SimpleCookie, overriding an existing name. -/
def morselSet (c : SimpleCookie) (k v : String) : SimpleCookie :=
  match c with
  | [] => [(k, v)]
  | (k', v') :: rest =>
      if k' = k then (k, v) :: rest else (k', v') :: morselSet rest k v

/-- SimpleCookie.load: merge the morsels parsed from a Set-Cookie header
into the cookie, overriding morsels with the same name. -/
def cookieLoad (c : SimpleCookie) (ms : List (String × String)) : SimpleCookie :=
  ms.foldl (fun acc kv => morselSet acc kv.1 kv.2) c

/-- Python truthiness of the _sessionCookie attribute: None and an empty
SimpleCookie (no morsels) are falsy. -/
def cookieTruthy : Option SimpleCookie → Bool
  | none => false
  | some c => !(List.isEmpty c)

/-- Python truthiness of the username/password attributes: None and the
empty string are falsy. -/
def pyTruthyStr : Option String → Bool
  | none => false
  | some s => !(s = "")

/-- The pickled session record: a dict keyed by username (which can be
None for an anonymous client) mapping to the pickled cookie (which can
itself be None). -/
def Record := List (Option String × Option SimpleCookie)
deriving Repr, DecidableEq

/-- Dict lookup in the session record (raises KeyError when none). -/
def recordLookup (r : Record) (k : Option String) : Option (Option SimpleCookie) :=
  match r with
  | [] => none
  | (k', v) :: rest => if k' = k then some v else recordLookup rest k

/-- Dict assignment save[username] = cookie in the session record. -/
def recordSet (r : Record) (k : Option String) (v : Option SimpleCookie) : Record :=
  match r with
  | [] => [(k, v)]
  | (k', v') :: rest =>
      if k' = k then (k, v) :: rest else (k', v') :: recordSet rest k v

/-- State of the on-disk session file (~/.fedora_session).
absent: path.isfile is false.  unreadable: the file exists but opening it
for read raises IOError.  corruptEof: pickle.load raises EOFError
(truncated/empty file).  corruptBad: pickle.load raises a non-EOF error
such as UnpicklingError.  ok r: pickle.load returns the record r. -/
inductive FileState where
  | absent
  | unreadable
  | corruptEof
  | corruptBad
  | ok (r : Record)
deriving Repr, DecidableEq

/-- BaseClient._load_session.  Returns the value of self._sessionCookie
after the call (prior is its value before), or the exception that
propagates.  The code catches only EOFError and KeyError: an unreadable
file (open raises IOError, outside the try) and a non-EOF deserialize
failure propagate to the caller. -/
def loadSession (fs : FileState) (username : Option String)
    (prior : Option SimpleCookie) : Except Err (Option SimpleCookie) :=
  match fs with
  | .absent => .ok prior
  | .unreadable => .error .ioError
  | .corruptEof => .ok prior
  | .corruptBad => .error .unpicklingError
  | .ok r =>
      match recordLookup r username with
      | some c => .ok c
      | none => .ok prior

/-- BaseClient._save_session.  Reads the existing record (the bare except
around pickle.load degrades any deserialize failure to an empty record,
but the read open itself is outside the try, so an unreadable file raises
IOError), sets record[username] := cookie, and writes the record back.
writeOk says whether the write phase succeeds; a write failure is caught
and logged, leaving the previous file state. -/
def saveSession (writeOk : Bool) (fs : FileState) (username : Option String)
    (cookie : Option SimpleCookie) : Except Err FileState :=
  match fs with
  | .unreadable => .error .ioError
  | _ =>
      let base : Record :=
        match fs with
        | .ok r => r
        | _ => []
      let newRec := recordSet base username cookie
      if writeOk then .ok (.ok newRec) else .ok fs

theorem recordLookup_set_self (r : Record) (k : Option String)
    (v : Option SimpleCookie) : recordLookup (recordSet r k v) k = some v := by
  induction r with
  | nil => simp [recordSet, recordLookup]
  | cons hd tl ih =>
      by_cases h : hd.1 = k
      · simp [recordSet, recordLookup, h]
      · simp [recordSet, recordLookup, h, ih]

theorem recordLookup_set_other (r : Record) (k k' : Option String)
    (v : Option SimpleCookie) (h : k' ≠ k) :
    recordLookup (recordSet r k v) k' = recordLookup r k' := by
  have h2 : ¬(k = k') := fun e => h e.symm
  induction r with
  | nil => simp [recordSet, recordLookup, h2]
  | cons hd tl ih =>
      obtain ⟨a, b⟩ := hd
      by_cases hk : a = k
      · subst hk
        simp [recordSet, recordLookup, h2]
      · by_cases hk' : a = k'
        · simp [recordSet, recordLookup, hk, hk', h]
        · simp [recordSet, recordLookup, hk, hk', ih]

/-- C3 counterexample: a session file whose contents fail to deserialize
with a non-EOF error (for instance a file holding garbage bytes, on which
cPickle raises UnpicklingError) makes _load_session propagate the
exception to the caller, contradicting the claim that loading never
raises for a corrupt/undeserializable file. -/
theorem loadSession_corrupt_raises_cex :
    loadSession FileState.corruptBad (some "alice") none =
      Except.error Err.unpicklingError := rfl

/-- C3 (amended): _load_session returns absent (leaves the cookie None)
without raising when the session file is absent, when deserialization
fails with EOFError, or when the record has no entry for the username;
only those failures are caught (an unreadable file or a non-EOF
deserialize failure propagates). -/
theorem loadSession_absent_cases (fs : FileState) (u : Option String)
    (h : fs = FileState.absent ∨ fs = FileState.corruptEof ∨
      (∃ r, fs = FileState.ok r ∧ recordLookup r u = none)) :
    loadSession fs u none = Except.ok none := by
  rcases h with h | h | ⟨r, hr, hl⟩
  · rw [h]; rfl
  · rw [h]; rfl
  · rw [hr]; simp [loadSession, hl]

/-- C3 witness: loading from a missing session file returns absent. -/
theorem loadSession_absent_cases_witness :
    loadSession FileState.absent (some "alice") none = Except.ok none :=
  loadSession_absent_cases FileState.absent (some "alice") (Or.inl rfl)

/-- C4: saving a credential for a username into an existing persisted
record and then loading for that username returns that credential, and
the entries of every other username are preserved unchanged. -/
theorem saveSession_roundtrip (r : Record) (u : Option String)
    (c : Option SimpleCookie) (fs' : FileState)
    (h : saveSession true (FileState.ok r) u c = Except.ok fs') :
    loadSession fs' u none = Except.ok c ∧
    ∀ v, v ≠ u → ∀ r', fs' = FileState.ok r' →
      recordLookup r' v = recordLookup r v := by
  have hfs : fs' = FileState.ok (recordSet r u c) := by
    simpa [saveSession] using h.symm
  subst hfs
  constructor
  · simp [loadSession, recordLookup_set_self]
  · intro v hv r' hr'
    injection hr' with h1
    subst h1
    exact recordLookup_set_other r u v c hv

/-- C4 witness: a concrete save of a cookie for alice over a record
holding an entry for bob, followed by a load for alice, and the entry of bob left
unchanged. -/
theorem saveSession_roundtrip_witness :
    loadSession (FileState.ok (recordSet [(some "bob", some [("k", "v")])]
        (some "alice") (some [("s", "t")]))) (some "alice") none =
      Except.ok (some [("s", "t")]) ∧
    recordLookup (recordSet [(some "bob", some [("k", "v")])]
        (some "alice") (some [("s", "t")])) (some "bob") =
      recordLookup [(some "bob", some [("k", "v")])] (some "bob") := by
  have h := saveSession_roundtrip [(some "bob", some [("k", "v")])]
    (some "alice") (some [("s", "t")])
    (FileState.ok (recordSet [(some "bob", some [("k", "v")])]
      (some "alice") (some [("s", "t")]))) rfl
  exact ⟨h.1, h.2 (some "bob") (by decide) _ rfl⟩

/-- A login exchange outcome: either urllib2.urlopen raises HTTPError, or
it returns a page whose body decodes to a payload (or fails to decode,
modelled by the Except) together with an optional set-cookie header whose
value is given as its parsed morsels. -/
inductive LoginResult where
  | httpError (msg : String)
  | page (body : Except String Payload) (setCookie : Option (List (String × String)))

/-- A send_request HTTP response: the optional set-cookie header (parsed
morsels) and the simplejson.loads result of the body (error message on a
non-JSON body). -/
structure HttpResponse where
  setCookie : Option (List (String × String))
  body : Except String Payload

/-- A send_request exchange outcome. -/
inductive HttpResult where
  | httpError (msg : String)
  | success (resp : HttpResponse)

/-- The environment: the responses of the server to the i-th send_request
urlopen and the i-th login urlopen, plus whether writes to the session
file succeed. -/
structure Env where
  http : Nat → HttpResult
  login : Nat → LoginResult
  writeOk : Bool

/-- In-memory state of a BaseClient plus the session file and ghost
counters: httpCount and loginCount count the urlopen calls performed by
send_request and _authenticate respectively, authForceCount the forced
(force=True) authentication attempts. -/
structure ClientState where
  username : Option String
  password : Option String
  sessionCookie : Option SimpleCookie
  fileState : FileState
  httpCount : Nat
  loginCount : Nat
  authForceCount : Nat

/-- BaseClient._authenticate.  Returns the value of the return statement
(self._sessionCookie) or the propagated exception, together with the new
state.  Mirrors the source: cached-cookie fast path, credential checks,
login POST, Forbidden mapped to AuthError, JSON decode of the login page,
the message key check, cookie extraction from the set-cookie header, and
_save_session before returning. -/
def authenticate (env : Env) (st : ClientState) (force : Bool) :
    Except Err (Option SimpleCookie) × ClientState :=
  if !force && cookieTruthy st.sessionCookie then
    (.ok st.sessionCookie, st)
  else
    let st0 := { st with
      authForceCount := st.authForceCount + (if force then 1 else 0) }
    if !(pyTruthyStr st0.username) then
      (.error (.authError "username must be set"), st0)
    else if !(pyTruthyStr st0.password) then
      (.error (.authError "password must be set"), st0)
    else
      let outcome := env.login st0.loginCount
      let st1 := { st0 with loginCount := st0.loginCount + 1 }
      match outcome with
      | .httpError msg =>
          if msg = "Forbidden" then
            (.error (.authError "Invalid username/password"), st1)
          else
            (.error (.httpError msg), st1)
      | .page body setCookie =>
          match body with
          | .error e => (.error (.valueError e), st1)
          | .ok loginData =>
              match payloadLookup loginData "message" with
              | some m =>
                  (.error (.authError
                    ("Unable to login to server: " ++ jsonStr m)), st1)
              | none =>
                  match setCookie with
                  | none =>
                      (.error (.authError
                        ("Unable to login to the server.  Server did not" ++
                         " send back a cookie")),
                       { st1 with sessionCookie := none })
                  | some ms =>
                      let c := cookieLoad [] ms
                      let st2 := { st1 with sessionCookie := some c }
                      match saveSession env.writeOk st2.fileState st2.username
                          st2.sessionCookie with
                      | .error e => (.error e, st2)
                      | .ok fs =>
                          (.ok (some c), { st2 with fileState := fs })

/-- True for the outcomes the original C5 claim allows: a returned
credential or an AuthError. -/
def isOkOrAuthError : Except Err (Option SimpleCookie) → Bool
  | .ok _ => true
  | .error (.authError _) => true
  | _ => false

/-- True for the outcomes _authenticate can actually have: a returned
credential, an AuthError, or a propagated lower-level failure (non-auth
HTTP error, login-page JSON decode error, or session-file read error). -/
def isAcceptableAuthOutcome : Except Err (Option SimpleCookie) → Bool
  | .ok _ => true
  | .error (.authError _) => true
  | .error (.httpError _) => true
  | .error (.valueError _) => true
  | .error .ioError => true
  | _ => false

/-- Concrete state with both credentials set, no in-memory cookie and no
session file. -/
def stC5 : ClientState :=
  { username := some "alice", password := some "secret",
    sessionCookie := none, fileState := FileState.absent,
    httpCount := 0, loginCount := 0, authForceCount := 0 }

/-- Environment whose login endpoint fails with a non-Forbidden HTTP
error (an internal server error). -/
def envC5 : Env :=
  { http := fun _ => HttpResult.httpError "Internal Server Error",
    login := fun _ => LoginResult.httpError "Internal Server Error",
    writeOk := true }

/-- C5 counterexample: with both username and password set, a login whose
urlopen raises a non-Forbidden HTTPError is re-raised unchanged by
_authenticate (the except branch only maps Forbidden to AuthError), so
the call neither returns a credential nor raises AuthError. -/
theorem authenticate_httpError_cex :
    isOkOrAuthError (authenticate envC5 stC5 true).1 = false := rfl

/-- C5 (amended): with username and password set and session-file writes
succeeding, _authenticate(force=True) either returns a credential,
raises AuthError, or propagates an underlying failure (non-Forbidden
HTTP error, login-page decode error, or session-file read error); it
never returns an absent credential, and on the successful path the new
credential has been stored in the session file under the username before
the return. -/
theorem authenticate_force_outcomes (env : Env) (st : ClientState)
    (hu : pyTruthyStr st.username = true)
    (hp : pyTruthyStr st.password = true)
    (hw : env.writeOk = true) :
    isAcceptableAuthOutcome (authenticate env st true).1 = true ∧
    ∀ copt, (authenticate env st true).1 = .ok copt →
      ∃ c, copt = some c ∧
        ∃ rec, (authenticate env st true).2.fileState = FileState.ok rec ∧
          recordLookup rec st.username = some (some c) := by
  unfold authenticate
  simp only [Bool.and_false, Bool.false_and]
  simp only [hu, hp, hw]
  rcases env.login st.loginCount with msg | ⟨body, setCookie⟩
  · by_cases hm : msg = "Forbidden" <;>
      simp [hm, isAcceptableAuthOutcome]
  · rcases body with e | loginData
    · simp [isAcceptableAuthOutcome]
    · rcases hmsg : payloadLookup loginData "message" with _ | m
      · rcases setCookie with _ | ms
        · simp [hmsg, isAcceptableAuthOutcome]
        · rcases hfs : st.fileState with _ | _ | _ | _ | r <;>
            simp [hmsg, hfs, saveSession, isAcceptableAuthOutcome,
              recordLookup_set_self]
      · simp [hmsg, isAcceptableAuthOutcome]

/-- Environment whose login succeeds with a session cookie. -/
def envAuthOk : Env :=
  { http := fun _ => HttpResult.httpError "Forbidden",
    login := fun _ => LoginResult.page (.ok []) (some [("session", "abc")]),
    writeOk := true }

/-- C5 witness: the amended statement at a concrete identity and a
concrete successful login exchange. -/
theorem authenticate_force_outcomes_witness :
    (pyTruthyStr stC5.username = true ∧ pyTruthyStr stC5.password = true ∧
      envAuthOk.writeOk = true) ∧
    (isAcceptableAuthOutcome (authenticate envAuthOk stC5 true).1 = true ∧
    ∀ copt, (authenticate envAuthOk stC5 true).1 = .ok copt →
      ∃ c, copt = some c ∧
        ∃ rec, (authenticate envAuthOk stC5 true).2.fileState =
            FileState.ok rec ∧
          recordLookup rec stC5.username = some (some c)) :=
  ⟨⟨rfl, rfl, rfl⟩, authenticate_force_outcomes envAuthOk stC5 rfl rfl rfl⟩

/-- C6: when the identity is missing its username or its password,
_authenticate(force=True) raises AuthError and performs no network call
(neither a login urlopen nor a request urlopen happens). -/
theorem authenticate_missing_creds (env : Env) (st : ClientState)
    (h : pyTruthyStr st.username = false ∨ pyTruthyStr st.password = false) :
    (∃ m, (authenticate env st true).1 = .error (.authError m)) ∧
    (authenticate env st true).2.loginCount = st.loginCount ∧
    (authenticate env st true).2.httpCount = st.httpCount := by
  unfold authenticate
  rcases h with h | h
  · simp [h]
  · by_cases hu : pyTruthyStr st.username <;> simp [hu, h]

/-- C6 witness: a state with a password but no username. -/
theorem authenticate_missing_creds_witness :
    (pyTruthyStr (ClientState.username
      { username := none, password := some "secret", sessionCookie := none,
        fileState := FileState.absent, httpCount := 0, loginCount := 0,
        authForceCount := 0 }) = false ∨
     pyTruthyStr (ClientState.password
      { username := none, password := some "secret", sessionCookie := none,
        fileState := FileState.absent, httpCount := 0, loginCount := 0,
        authForceCount := 0 }) = false) ∧
    ((∃ m, (authenticate envAuthOk
      { username := none, password := some "secret", sessionCookie := none,
        fileState := FileState.absent, httpCount := 0, loginCount := 0,
        authForceCount := 0 } true).1 = .error (.authError m)) ∧
    (authenticate envAuthOk
      { username := none, password := some "secret", sessionCookie := none,
        fileState := FileState.absent, httpCount := 0, loginCount := 0,
        authForceCount := 0 } true).2.loginCount = 0 ∧
    (authenticate envAuthOk
      { username := none, password := some "secret", sessionCookie := none,
        fileState := FileState.absent, httpCount := 0, loginCount := 0,
        authForceCount := 0 } true).2.httpCount = 0) :=
  ⟨Or.inl rfl, authenticate_missing_creds envAuthOk _ (Or.inl rfl)⟩

/-- C7: with a usable (truthy) in-memory session cookie, a force=False
authentication returns exactly that cookie and leaves the state (hence
all network counters) unchanged, and so does a second consecutive call:
both return the same credential and perform no network call. -/
theorem authenticate_cached_idempotent (env : Env) (st : ClientState)
    (c : SimpleCookie) (hc : st.sessionCookie = some c) (hne : c ≠ []) :
    authenticate env st false = (.ok (some c), st) ∧
    authenticate env (authenticate env st false).2 false = (.ok (some c), st) := by
  have htr : cookieTruthy (some c) = true := by
    simp [cookieTruthy, List.isEmpty_iff, hne]
  have h1 : authenticate env st false = (.ok (some c), st) := by
    unfold authenticate
    simp [hc, htr]
  exact ⟨h1, by rw [h1]; exact h1⟩

/-- C7 witness: a concrete client with a nonempty in-memory cookie. -/
theorem authenticate_cached_idempotent_witness :
    (ClientState.sessionCookie
      { username := some "alice", password := some "secret",
        sessionCookie := some [("session", "abc")],
        fileState := FileState.absent, httpCount := 0, loginCount := 0,
        authForceCount := 0 } = some [("session", "abc")] ∧
      ([("session", "abc")] : SimpleCookie) ≠ []) ∧
    (authenticate envAuthOk
      { username := some "alice", password := some "secret",
        sessionCookie := some [("session", "abc")],
        fileState := FileState.absent, httpCount := 0, loginCount := 0,
        authForceCount := 0 } false = (.ok (some [("session", "abc")]),
      { username := some "alice", password := some "secret",
        sessionCookie := some [("session", "abc")],
        fileState := FileState.absent, httpCount := 0, loginCount := 0,
        authForceCount := 0 }) ∧
    authenticate envAuthOk (authenticate envAuthOk
      { username := some "alice", password := some "secret",
        sessionCookie := some [("session", "abc")],
        fileState := FileState.absent, httpCount := 0, loginCount := 0,
        authForceCount := 0 } false).2 false = (.ok (some [("session", "abc")]),
      { username := some "alice", password := some "secret",
        sessionCookie := some [("session", "abc")],
        fileState := FileState.absent, httpCount := 0, loginCount := 0,
        authForceCount := 0 })) :=
  ⟨⟨rfl, by decide⟩, authenticate_cached_idempotent envAuthOk _ _ rfl (by decide)⟩

/-- Intermediate outcome of one send_request attempt: a final result, or
one of the two retry signals (HTTP Forbidden, or a logging_in payload)
whose handling depends on whether this attempt is already the replay. -/
inductive AttemptRes where
  | result (r : Except Err Payload)
  | needReauthForbidden (msg : String)
  | needReauthLoggingIn (data : Payload)

/-- One attempt of BaseClient.send_request, up to the retry decision:
cookie attachment (auth=True calls the session property, that is
_authenticate(force=False); otherwise an existing cookie is attached
without triggering authentication), the urlopen, the opportunistic
sliding-session cookie update (the AttributeError when _sessionCookie is
None and the KeyError when the header is missing are both swallowed),
JSON decoding, the exc check (whose message lookup of tg_flash is
unguarded), and the logging_in check. -/
def attempt (env : Env) (st : ClientState) (auth : Bool) :
    AttemptRes × ClientState :=
  match (if auth then authenticate env st false
         else (.ok st.sessionCookie, st)) with
  | (.error e, st1) => (.result (.error e), st1)
  | (.ok _, st1) =>
      match env.http st1.httpCount with
      | .httpError msg =>
          let st2 := { st1 with httpCount := st1.httpCount + 1 }
          if msg = "Forbidden" then (.needReauthForbidden msg, st2)
          else (.result (.error (.httpError msg)), st2)
      | .success resp =>
          let newCookie :=
            match st1.sessionCookie, resp.setCookie with
            | some c, some ms => some (cookieLoad c ms)
            | oc, _ => oc
          let st3 :=
            { st1 with httpCount := st1.httpCount + 1, sessionCookie := newCookie }
          match resp.body with
          | .error e => (.result (.error (.serverError e)), st3)
          | .ok data =>
              match payloadLookup data "exc" with
              | some excv =>
                  match payloadLookup data "tg_flash" with
                  | some msgv =>
                      (.result (.error (.appError excv msgv)), st3)
                  | none => (.result (.error .keyError), st3)
              | none =>
                  match payloadLookup data "logging_in" with
                  | some _ => (.needReauthLoggingIn data, st3)
                  | none => (.result (.ok data), st3)

/-- The replay of send_request (the recursive call made after a forced
re-authentication).  Inside it the caller frame is send_request itself,
so both retry checks take their fatal branch: a second Forbidden raises
AuthError, and a second logging_in payload raises AuthError built by
interpolating %(message)s from the payload, which is a KeyError when the
payload has no message key. -/
def sendRequestRetry (env : Env) (st : ClientState) (method : String)
    (auth : Bool) (reqParams : Option Params) :
    Except Err Payload × ClientState :=
  match attempt env st auth with
  | (.result r, st1) => (r, st1)
  | (.needReauthForbidden msg, st1) =>
      (.error (.authError ("Unable to log into server: " ++ msg)), st1)
  | (.needReauthLoggingIn data, st1) =>
      match payloadLookup data "message" with
      | some m =>
          (.error (.authError ("Unable to log into server: " ++ jsonStr m)),
           st1)
      | none => (.error .keyError, st1)

/-- BaseClient.send_request for a top-level (non-recursive) call.  The
source bounds the recursion by comparing stack frames (the retry branch
is taken only when the caller is not send_request itself); this is the
retry-budget-one unrolling of that recursion: on the first Forbidden or
logging_in signal it force-reauthenticates and replays the same
method/auth/reqParams once, via sendRequestRetry. -/
def sendRequest (env : Env) (st : ClientState) (method : String)
    (auth : Bool) (reqParams : Option Params) :
    Except Err Payload × ClientState :=
  match attempt env st auth with
  | (.result r, st1) => (r, st1)
  | (.needReauthForbidden _, st1) =>
      match authenticate env st1 true with
      | (.error e, st2) => (.error e, st2)
      | (.ok _, st2) => sendRequestRetry env st2 method auth reqParams
  | (.needReauthLoggingIn _, st1) =>
      match authenticate env st1 true with
      | (.error e, st2) => (.error e, st2)
      | (.ok _, st2) => sendRequestRetry env st2 method auth reqParams

theorem attachStep (env : Env) (st : ClientState) (auth : Bool)
    (h : auth = true → cookieTruthy st.sessionCookie = true) :
    (if auth then authenticate env st false
     else (.ok st.sessionCookie, st)) = (.ok st.sessionCookie, st) := by
  cases auth with
  | false => rfl
  | true =>
      have htr := h rfl
      simp only [if_pos]
      unfold authenticate
      simp [htr]

/-- Anonymous client state: no identity, no in-memory cookie, no session
file. -/
def stAnon : ClientState :=
  { username := none, password := none, sessionCookie := none,
    fileState := FileState.absent, httpCount := 0, loginCount := 0,
    authForceCount := 0 }

/-- Environment whose requests succeed with a Set-Cookie header and an
empty JSON object body. -/
def envC2 : Env :=
  { http := fun _ => HttpResult.success
      { setCookie := some [("session", "abc")], body := .ok [] },
    login := fun _ => LoginResult.page (.ok []) none,
    writeOk := true }

/-- C2 counterexample: on a successful call whose response does carry a
Set-Cookie header, a client with no in-memory session credential does
not absorb the header: self._sessionCookie.load raises AttributeError on
None, which the except clause swallows, so the credential stays absent
(the claim asserts the update happens regardless of the prior in-memory
state). -/
theorem sendRequest_no_renewal_cex :
    (sendRequest envC2 stAnon "collections" false none).1 = .ok [] ∧
    (sendRequest envC2 stAnon "collections" false none).2.sessionCookie
      = none := ⟨rfl, rfl⟩

/-- C2 (amended): on a send_request call that completes without retry,
if a (truthy) session credential is already in memory then any
Set-Cookie header on the response is merged into it, the absence of such
a header leaves it unchanged, and neither case is an error; when no
credential is in memory the header is silently ignored. -/
theorem sendRequest_cookie_renewal (env : Env) (st : ClientState)
    (method : String) (auth : Bool) (p : Option Params) (c : SimpleCookie)
    (resp : HttpResponse) (data : Payload)
    (hc : st.sessionCookie = some c) (hne : c ≠ [])
    (hhttp : env.http st.httpCount = HttpResult.success resp)
    (hbody : resp.body = .ok data)
    (hexc : payloadLookup data "exc" = none)
    (hlog : payloadLookup data "logging_in" = none) :
    (sendRequest env st method auth p).1 = .ok data ∧
    (sendRequest env st method auth p).2.sessionCookie =
      some (match resp.setCookie with
            | some ms => cookieLoad c ms
            | none => c) := by
  have ha := attachStep env st auth
    (fun _ => by simp [hc, cookieTruthy, List.isEmpty_iff, hne])
  obtain ⟨sc, body⟩ := resp
  simp only at hbody
  subst hbody
  unfold sendRequest attempt
  rw [ha]
  rcases sc with _ | ms <;>
    simp [hhttp, hexc, hlog, hc]

/-- C2 witness: a call with an in-memory cookie and a response carrying a
Set-Cookie header merges the header into the cookie. -/
theorem sendRequest_cookie_renewal_witness :
    (ClientState.sessionCookie
      { username := none, password := none,
        sessionCookie := some [("session", "old")],
        fileState := FileState.absent, httpCount := 0, loginCount := 0,
        authForceCount := 0 } = some [("session", "old")] ∧
      ([("session", "old")] : SimpleCookie) ≠ [] ∧
      envC2.http 0 = HttpResult.success
        { setCookie := some [("session", "abc")], body := .ok [] } ∧
      (Except.ok [] : Except String Payload) = .ok [] ∧
      payloadLookup [] "exc" = none ∧
      payloadLookup [] "logging_in" = none) ∧
    ((sendRequest envC2
      { username := none, password := none,
        sessionCookie := some [("session", "old")],
        fileState := FileState.absent, httpCount := 0, loginCount := 0,
        authForceCount := 0 } "collections" false none).1 = .ok [] ∧
    (sendRequest envC2
      { username := none, password := none,
        sessionCookie := some [("session", "old")],
        fileState := FileState.absent, httpCount := 0, loginCount := 0,
        authForceCount := 0 } "collections" false none).2.sessionCookie =
      some (cookieLoad [("session", "old")] [("session", "abc")])) :=
  ⟨⟨rfl, by decide, rfl, rfl, rfl, rfl⟩,
   sendRequest_cookie_renewal envC2 _ "collections" false none
     [("session", "old")]
     { setCookie := some [("session", "abc")], body := .ok [] } []
     rfl (by decide) rfl rfl rfl rfl⟩

/-- C8: when the HTTP exchange succeeds and the decoded payload contains
an exc key together with a tg_flash key, send_request raises AppError
carrying the exc value as the error name and the tg_flash value as the
message.  (The tg_flash presence is required: C10 covers its absence.) -/
theorem sendRequest_appError (env : Env) (st : ClientState)
    (method : String) (auth : Bool) (p : Option Params)
    (resp : HttpResponse) (data : Payload) (excv msgv : JsonVal)
    (hauth : auth = true → cookieTruthy st.sessionCookie = true)
    (hhttp : env.http st.httpCount = HttpResult.success resp)
    (hbody : resp.body = .ok data)
    (hexc : payloadLookup data "exc" = some excv)
    (hfl : payloadLookup data "tg_flash" = some msgv) :
    (sendRequest env st method auth p).1 =
      .error (.appError excv msgv) := by
  have ha := attachStep env st auth hauth
  obtain ⟨sc, body⟩ := resp
  simp only at hbody
  subst hbody
  simp [sendRequest, attempt, ha, hhttp, hexc, hfl]

/-- Environment whose server reports the packagedb application error for
every request. -/
def envC8 : Env :=
  { http := fun _ => HttpResult.success
      { setCookie := none,
        body := .ok [("exc", JsonVal.str "PackageDBError"),
                     ("tg_flash", JsonVal.str "no such package")] },
    login := fun _ => LoginResult.page (.ok []) none,
    writeOk := true }

/-- C8 witness: the spec scenario, a response with exc PackageDBError and
tg_flash no such package for send_request on /acls/name/missing-pkg. -/
theorem sendRequest_appError_witness :
    ((false = true → cookieTruthy stAnon.sessionCookie = true) ∧
      envC8.http 0 = HttpResult.success
        { setCookie := none,
          body := .ok [("exc", JsonVal.str "PackageDBError"),
                       ("tg_flash", JsonVal.str "no such package")] } ∧
      payloadLookup [("exc", JsonVal.str "PackageDBError"),
                     ("tg_flash", JsonVal.str "no such package")] "exc" =
        some (JsonVal.str "PackageDBError") ∧
      payloadLookup [("exc", JsonVal.str "PackageDBError"),
                     ("tg_flash", JsonVal.str "no such package")] "tg_flash" =
        some (JsonVal.str "no such package")) ∧
    (sendRequest envC8 stAnon "/acls/name/missing-pkg" false none).1 =
      .error (.appError (JsonVal.str "PackageDBError")
        (JsonVal.str "no such package")) :=
  ⟨⟨by decide, rfl, by decide, by decide⟩,
   sendRequest_appError envC8 stAnon "/acls/name/missing-pkg" false none
     { setCookie := none,
       body := .ok [("exc", JsonVal.str "PackageDBError"),
                    ("tg_flash", JsonVal.str "no such package")] }
     [("exc", JsonVal.str "PackageDBError"),
      ("tg_flash", JsonVal.str "no such package")]
     (JsonVal.str "PackageDBError") (JsonVal.str "no such package")
     (by decide) rfl rfl (by decide) (by decide)⟩

/-- C9: when the HTTP exchange succeeds but the response body is not
valid JSON, send_request raises ServerError carrying the decode error
text. -/
theorem sendRequest_serverError (env : Env) (st : ClientState)
    (method : String) (auth : Bool) (p : Option Params)
    (resp : HttpResponse) (e : String)
    (hauth : auth = true → cookieTruthy st.sessionCookie = true)
    (hhttp : env.http st.httpCount = HttpResult.success resp)
    (hbody : resp.body = .error e) :
    (sendRequest env st method auth p).1 = .error (.serverError e) := by
  have ha := attachStep env st auth hauth
  obtain ⟨sc, body⟩ := resp
  simp only at hbody
  subst hbody
  simp [sendRequest, attempt, ha, hhttp]

/-- Environment whose server answers every request with an HTML error
page, so that simplejson.loads fails. -/
def envC9 : Env :=
  { http := fun _ => HttpResult.success
      { setCookie := none,
        body := .error "No JSON object could be decoded" },
    login := fun _ => LoginResult.page (.ok []) none,
    writeOk := true }

/-- C9 witness: the spec scenario, a non-JSON body (an HTML error page
whose decode fails) makes send_request raise ServerError with the decode
error text. -/
theorem sendRequest_serverError_witness :
    ((false = true → cookieTruthy stAnon.sessionCookie = true) ∧
      envC9.http 0 = HttpResult.success
        { setCookie := none,
          body := .error "No JSON object could be decoded" }) ∧
    (sendRequest envC9 stAnon "collections" false none).1 =
      .error (.serverError "No JSON object could be decoded") :=
  ⟨⟨by decide, rfl⟩,
   sendRequest_serverError envC9 stAnon "collections" false none
     { setCookie := none, body := .error "No JSON object could be decoded" }
     "No JSON object could be decoded" (by decide) rfl rfl⟩

/-- C10: when the decoded payload contains an exc key but no tg_flash
key, the unguarded lookup data of tg_flash raises KeyError instead of
constructing the AppError. -/
theorem sendRequest_exc_missing_flash (env : Env) (st : ClientState)
    (method : String) (auth : Bool) (p : Option Params)
    (resp : HttpResponse) (data : Payload) (excv : JsonVal)
    (hauth : auth = true → cookieTruthy st.sessionCookie = true)
    (hhttp : env.http st.httpCount = HttpResult.success resp)
    (hbody : resp.body = .ok data)
    (hexc : payloadLookup data "exc" = some excv)
    (hfl : payloadLookup data "tg_flash" = none) :
    (sendRequest env st method auth p).1 = .error .keyError := by
  have ha := attachStep env st auth hauth
  obtain ⟨sc, body⟩ := resp
  simp only at hbody
  subst hbody
  simp [sendRequest, attempt, ha, hhttp, hexc, hfl]

/-- Environment whose server reports an exc payload without tg_flash. -/
def envC10 : Env :=
  { http := fun _ => HttpResult.success
      { setCookie := none,
        body := .ok [("exc", JsonVal.str "PackageDBError")] },
    login := fun _ => LoginResult.page (.ok []) none,
    writeOk := true }

/-- C10 witness: a payload with exc but no tg_flash produces the
KeyError, not an AppError. -/
theorem sendRequest_exc_missing_flash_witness :
    ((false = true → cookieTruthy stAnon.sessionCookie = true) ∧
      envC10.http 0 = HttpResult.success
        { setCookie := none,
          body := .ok [("exc", JsonVal.str "PackageDBError")] } ∧
      payloadLookup [("exc", JsonVal.str "PackageDBError")] "exc" =
        some (JsonVal.str "PackageDBError") ∧
      payloadLookup [("exc", JsonVal.str "PackageDBError")] "tg_flash" =
        none) ∧
    (sendRequest envC10 stAnon "/acls/name/missing-pkg" false none).1 =
      .error .keyError :=
  ⟨⟨by decide, rfl, by decide, by decide⟩,
   sendRequest_exc_missing_flash envC10 stAnon "/acls/name/missing-pkg"
     false none
     { setCookie := none, body := .ok [("exc", JsonVal.str "PackageDBError")] }
     [("exc", JsonVal.str "PackageDBError")] (JsonVal.str "PackageDBError")
     (by decide) rfl rfl (by decide) (by decide)⟩

theorem authenticate_httpCount (env : Env) (st : ClientState) (f : Bool) :
    (authenticate env st f).2.httpCount = st.httpCount := by
  unfold authenticate
  dsimp only
  (repeat' split) <;> simp_all

theorem authenticate_authForce_false (env : Env) (st : ClientState) :
    (authenticate env st false).2.authForceCount = st.authForceCount := by
  unfold authenticate
  dsimp only
  (repeat' split) <;> simp_all

theorem authenticate_authForce_true (env : Env) (st : ClientState) :
    (authenticate env st true).2.authForceCount = st.authForceCount + 1 := by
  unfold authenticate
  dsimp only
  (repeat' split) <;> simp_all

theorem attach_state (env : Env) (st : ClientState) (a : Bool)
    (r : Except Err (Option SimpleCookie)) (st1 : ClientState)
    (h : (if a then authenticate env st false
          else (.ok st.sessionCookie, st)) = (r, st1)) :
    st1.httpCount = st.httpCount ∧ st1.authForceCount = st.authForceCount := by
  cases a with
  | false =>
      simp only [Bool.false_eq_true, if_false] at h
      obtain ⟨h1, h2⟩ := Prod.mk.injEq .. ▸ h
      rw [← h2]
      exact ⟨rfl, rfl⟩
  | true =>
      simp only [if_true] at h
      constructor
      · have hx := authenticate_httpCount env st false
        rw [h] at hx
        simpa using hx
      · have hx := authenticate_authForce_false env st
        rw [h] at hx
        simpa using hx

/-- Counter behaviour of one send_request attempt: it never performs a
forced authentication, it performs at most one request urlopen, and the
two retry signals arise exactly after that one urlopen. -/
theorem attempt_state (env : Env) (st : ClientState) (a : Bool)
    (res : AttemptRes) (st1 : ClientState)
    (hA : attempt env st a = (res, st1)) :
    st1.authForceCount = st.authForceCount ∧
    st.httpCount ≤ st1.httpCount ∧ st1.httpCount ≤ st.httpCount + 1 ∧
    (∀ m, res = .needReauthForbidden m → st1.httpCount = st.httpCount + 1) ∧
    (∀ d, res = .needReauthLoggingIn d → st1.httpCount = st.httpCount + 1) := by
  unfold attempt at hA
  cases hif : (if a then authenticate env st false
      else ((.ok st.sessionCookie : Except Err (Option SimpleCookie)), st)) with
  | mk r0 stA =>
    rw [hif] at hA
    obtain ⟨hh, hf⟩ := attach_state env st a r0 stA hif
    cases r0 with
    | error e =>
        simp only [Prod.mk.injEq] at hA
        obtain ⟨h1, h2⟩ := hA
        subst h1
        subst h2
        refine ⟨hf, by omega, by omega, ?_, ?_⟩ <;> intro x hx <;> simp at hx
    | ok c =>
        dsimp only at hA
        rcases hres : env.http stA.httpCount with msg | resp
        · rw [hres] at hA
          dsimp only at hA
          by_cases hm : msg = "Forbidden" <;>
            simp only [hm, if_true, if_false, Bool.false_eq_true,
              reduceIte, Prod.mk.injEq] at hA <;>
            obtain ⟨h1, h2⟩ := hA <;> subst h1 <;> subst h2 <;>
            refine ⟨by simp [hf], by simp; omega, by simp; omega, ?_, ?_⟩ <;>
            intro x hx <;> simp_all <;> omega
        · rw [hres] at hA
          dsimp only at hA
          rcases hb : resp.body with e | data
          · rw [hb] at hA
            simp only [Prod.mk.injEq] at hA
            obtain ⟨h1, h2⟩ := hA
            subst h1
            subst h2
            refine ⟨by simp [hf], by simp; omega, by simp; omega, ?_, ?_⟩ <;>
              intro x hx <;> simp at hx
          · rw [hb] at hA
            dsimp only at hA
            rcases hexc : payloadLookup data "exc" with _ | excv
            · rw [hexc] at hA
              dsimp only at hA
              rcases hlog : payloadLookup data "logging_in" with _ | lv
              · rw [hlog] at hA
                simp only [Prod.mk.injEq] at hA
                obtain ⟨h1, h2⟩ := hA
                subst h1
                subst h2
                refine ⟨by simp [hf], by simp; omega, by simp; omega,
                  ?_, ?_⟩ <;> intro x hx <;> simp at hx
              · rw [hlog] at hA
                simp only [Prod.mk.injEq] at hA
                obtain ⟨h1, h2⟩ := hA
                subst h1
                subst h2
                refine ⟨by simp [hf], by simp; omega, by simp; omega,
                  ?_, ?_⟩ <;> intro x hx <;> simp_all <;> omega
            · rw [hexc] at hA
              dsimp only at hA
              rcases hfl : payloadLookup data "tg_flash" with _ | fv <;>
                rw [hfl] at hA <;>
                simp only [Prod.mk.injEq] at hA <;>
                obtain ⟨h1, h2⟩ := hA <;> subst h1 <;> subst h2 <;>
                refine ⟨by simp [hf], by simp; omega, by simp; omega,
                  ?_, ?_⟩ <;> intro x hx <;> simp at hx

/-- A server that persistently signals session expiry: every request
either fails at the HTTP level with Forbidden or succeeds with a decoded
payload containing a logging_in key (and no exc key, which would take
the application-error branch before the logging_in check). -/
def alwaysSessionExpired (env : Env) : Prop :=
  ∀ n, env.http n = HttpResult.httpError "Forbidden" ∨
    ∃ resp data, env.http n = HttpResult.success resp ∧
      resp.body = Except.ok data ∧
      (payloadLookup data "logging_in").isSome = true ∧
      payloadLookup data "exc" = none

/-- Against a persistently expired server, an attempt can only end in a
propagated error from the cookie-attachment step (no urlopen performed)
or in one of the two retry signals; it never produces a normal result. -/
theorem attempt_expired (env : Env) (h : alwaysSessionExpired env)
    (st : ClientState) (a : Bool) (r : Except Err Payload) (st1 : ClientState)
    (hA : attempt env st a = (.result r, st1)) :
    (∃ e, r = .error e) ∧ st1.httpCount = st.httpCount := by
  unfold attempt at hA
  cases hif : (if a then authenticate env st false
      else ((.ok st.sessionCookie : Except Err (Option SimpleCookie)), st)) with
  | mk r0 stA =>
    rw [hif] at hA
    obtain ⟨hh, hf⟩ := attach_state env st a r0 stA hif
    cases r0 with
    | error e =>
        simp only [Prod.mk.injEq] at hA
        obtain ⟨h1, h2⟩ := hA
        injection h1 with h1
        exact ⟨⟨e, h1.symm⟩, h2 ▸ hh⟩
    | ok c =>
        dsimp only at hA
        rcases h stA.httpCount with hforb | ⟨resp, data, hres, hbody, hlog, hexc⟩
        · rw [hforb] at hA
          simp at hA
        · rw [hres] at hA
          dsimp only at hA
          rw [hbody] at hA
          dsimp only at hA
          rw [hexc] at hA
          dsimp only at hA
          obtain ⟨lv, hlv⟩ := Option.isSome_iff_exists.mp hlog
          rw [hlv] at hA
          simp at hA

/-- Against a persistently expired server, the replay (the isRetry
instance of send_request) performs at most one further urlopen, no
forced authentication, always fails, and when its urlopen did happen the
failure is an AuthError or the KeyError from the logging_in message
interpolation. -/
theorem retry_spec (env : Env) (h : alwaysSessionExpired env)
    (st : ClientState) (m : String) (a : Bool) (p : Option Params) :
    (sendRequestRetry env st m a p).2.authForceCount = st.authForceCount ∧
    (sendRequestRetry env st m a p).2.httpCount ≤ st.httpCount + 1 ∧
    ∃ e, (sendRequestRetry env st m a p).1 = .error e ∧
      ((sendRequestRetry env st m a p).2.httpCount = st.httpCount + 1 →
        (∃ msg, e = .authError msg) ∨ e = .keyError) := by
  unfold sendRequestRetry
  cases hA : attempt env st a with
  | mk ar st1 =>
    obtain ⟨haf, hlo, hhi, hforb, hlog⟩ := attempt_state env st a ar st1 hA
    cases ar with
    | result r =>
        dsimp only
        obtain ⟨⟨e, he⟩, hcnt⟩ := attempt_expired env h st a r st1 hA
        subst he
        exact ⟨haf, by omega, e, rfl, fun hc => absurd hc (by omega)⟩
    | needReauthForbidden msg =>
        dsimp only
        have h1 := hforb msg rfl
        exact ⟨haf, by omega,
          .authError ("Unable to log into server: " ++ msg), rfl,
          fun _ => Or.inl ⟨_, rfl⟩⟩
    | needReauthLoggingIn data =>
        have h1 := hlog data rfl
        rcases hm : payloadLookup data "message" with _ | mv
        · dsimp only
          rw [hm]
          dsimp only
          exact ⟨haf, by omega, .keyError, rfl, fun _ => Or.inr rfl⟩
        · dsimp only
          rw [hm]
          dsimp only
          exact ⟨haf, by omega,
            .authError ("Unable to log into server: " ++ jsonStr mv), rfl,
            fun _ => Or.inl ⟨_, rfl⟩⟩

/-- C1 (amended): against a server that persistently reports Forbidden
or logging_in, send_request performs at most one replay (at most two
request urlopens in total) and at most one forced re-authentication
attempt, and always fails; when the replay did happen (both urlopens
were performed), the failure is an AuthError, except that a logging_in
payload lacking a message key makes the fatal branch raise the KeyError
from its %(message)s interpolation instead.  It never recurses beyond
the single replay. -/
theorem sendRequest_retry_bound (env : Env) (st : ClientState) (m : String)
    (a : Bool) (p : Option Params) (h : alwaysSessionExpired env) :
    (sendRequest env st m a p).2.httpCount ≤ st.httpCount + 2 ∧
    (sendRequest env st m a p).2.authForceCount ≤ st.authForceCount + 1 ∧
    ∃ e, (sendRequest env st m a p).1 = .error e ∧
      ((sendRequest env st m a p).2.httpCount = st.httpCount + 2 →
        (∃ msg, e = .authError msg) ∨ e = .keyError) := by
  unfold sendRequest
  cases hA : attempt env st a with
  | mk ar st1 =>
    obtain ⟨haf, hlo, hhi, hforb, hlog⟩ := attempt_state env st a ar st1 hA
    cases ar with
    | result r =>
        dsimp only
        obtain ⟨⟨e, he⟩, hcnt⟩ := attempt_expired env h st a r st1 hA
        subst he
        exact ⟨by omega, by omega, e, rfl, fun hc => absurd hc (by omega)⟩
    | needReauthForbidden msg =>
        dsimp only
        have h1 := hforb msg rfl
        cases hAu : authenticate env st1 true with
        | mk aur st2 =>
          have hx : st2.httpCount = st1.httpCount := by
            have hz := authenticate_httpCount env st1 true
            rw [hAu] at hz
            simpa using hz
          have hy : st2.authForceCount = st1.authForceCount + 1 := by
            have hz := authenticate_authForce_true env st1
            rw [hAu] at hz
            simpa using hz
          cases aur with
          | error e =>
              dsimp only
              exact ⟨by omega, by omega, e, rfl, fun hc => absurd hc (by omega)⟩
          | ok c =>
              dsimp only
              obtain ⟨raf, rhi, e, hre, hcond⟩ := retry_spec env h st2 m a p
              exact ⟨by omega, by omega, e, hre, fun hc => hcond (by omega)⟩
    | needReauthLoggingIn data =>
        dsimp only
        have h1 := hlog data rfl
        cases hAu : authenticate env st1 true with
        | mk aur st2 =>
          have hx : st2.httpCount = st1.httpCount := by
            have hz := authenticate_httpCount env st1 true
            rw [hAu] at hz
            simpa using hz
          have hy : st2.authForceCount = st1.authForceCount + 1 := by
            have hz := authenticate_authForce_true env st1
            rw [hAu] at hz
            simpa using hz
          cases aur with
          | error e =>
              dsimp only
              exact ⟨by omega, by omega, e, rfl, fun hc => absurd hc (by omega)⟩
          | ok c =>
              dsimp only
              obtain ⟨raf, rhi, e, hre, hcond⟩ := retry_spec env h st2 m a p
              exact ⟨by omega, by omega, e, hre, fun hc => hcond (by omega)⟩

/-- Client with a full identity, no in-memory cookie and no session
file. -/
def stLG : ClientState :=
  { username := some "alice", password := some "secret",
    sessionCookie := none, fileState := FileState.absent,
    httpCount := 0, loginCount := 0, authForceCount := 0 }

/-- Server that always answers with a logging_in payload carrying no
message key, while logins succeed. -/
def envLG : Env :=
  { http := fun _ => HttpResult.success
      { setCookie := none, body := .ok [("logging_in", JsonVal.str "1")] },
    login := fun _ => LoginResult.page (.ok []) (some [("session", "abc")]),
    writeOk := true }

/-- C1 counterexample: a server persistently returning the payload with
a logging_in key but no message key makes the replayed call take the
fatal branch, where raise AuthError interpolates %(message)s from the
payload; that interpolation raises KeyError before the AuthError is
built, so the repeated occurrence raises a key-lookup error and not
AuthError as the claim states (the two urlopens and the single forced
re-authentication confirm that the replay did occur exactly once). -/
theorem sendRequest_loggingIn_keyError_cex :
    (sendRequest envLG stLG "/collections/" false none).1 =
      .error .keyError ∧
    (sendRequest envLG stLG "/collections/" false none).2.httpCount = 2 ∧
    (sendRequest envLG stLG "/collections/" false none).2.authForceCount
      = 1 := ⟨rfl, rfl, rfl⟩

/-- Server that always rejects requests with HTTP Forbidden, while
logins succeed. -/
def envForb : Env :=
  { http := fun _ => HttpResult.httpError "Forbidden",
    login := fun _ => LoginResult.page (.ok []) (some [("session", "abc")]),
    writeOk := true }

/-- C1 witness: the retry bound at a concrete persistently-Forbidden
server. -/
theorem sendRequest_retry_bound_witness :
    alwaysSessionExpired envForb ∧
    ((sendRequest envForb stLG "/collections/" false none).2.httpCount ≤
        stLG.httpCount + 2 ∧
      (sendRequest envForb stLG "/collections/" false none).2.authForceCount
        ≤ stLG.authForceCount + 1 ∧
      ∃ e, (sendRequest envForb stLG "/collections/" false none).1 =
          .error e ∧
        ((sendRequest envForb stLG "/collections/" false none).2.httpCount =
            stLG.httpCount + 2 →
          (∃ msg, e = .authError msg) ∨ e = .keyError)) :=
  ⟨fun _ => Or.inl rfl,
   sendRequest_retry_bound envForb stLG "/collections/" false none
     (fun _ => Or.inl rfl)⟩
